import Mathlib

/-!
Shallow embedding of the SpectatorView Unity plugin interface
(`UnityCompositorInterface` translation unit): the global connection state,
the background reconnection loop (`ListenForServer`), the synchronous pose
exchange (`ListenForData` / `GetPose`), and the render-event / GPU-texture
slot functions (`OnRenderEvent`, `ResetSV`, `SetOutputRenderTexture`,
`SetVideoRenderTexture`, `CreateUnityColorTexture`, `InitializeFrameProvider`,
recording controls).

Modelling conventions:
- The 32-bit float fields of `SVPose` (position / quaternion) are carried as
  their raw 32-bit patterns (`Nat`): the code only zero-initializes them,
  `memcpy`s whole records and returns the fields verbatim, so bit patterns
  are exact.
- `LONGLONG` timestamps/offsets are `Int`; they are only stored and copied.
- Pointers that the code merely stores and compares against `nullptr`
  (texture slots) are `Option Nat` — `none` is the null pointer, `some h`
  a non-null handle.
- The `CompositorInterface* ci` pointer is a `Bool` (`true` = a session
  object exists); its member calls are modelled as emitted effects, with
  their results (`GetFrameDelayMS`, `InitializeVideoEncoder`,
  `IsVideoFrameReady`, connect result) supplied as environment inputs of the
  step. Calling a member through a null `ci` is a fault, modelled as `none`.
- Each source-level basic block executes atomically; one iteration of the
  spawned retry-loop body is one atomic step (`loopIterate`).  `loopTasks`
  counts the live retry-loop tasks spawned by `ListenForServer`.
-/

/-- Wire record received from the remote device (`SVPose` in
`NetworkPacketStructure.h`): 3 float position, 4 float quaternion (raw 32-bit
patterns) and a server-side timestamp. -/
structure SVPose where
  posX : Nat
  posY : Nat
  posZ : Nat
  rotX : Nat
  rotY : Nat
  rotZ : Nat
  rotW : Nat
  sentTime : Int
deriving DecidableEq, Repr

/-- The zero-initialized pose record (all statics have static storage
duration, hence zero-initialization in C++). -/
def SVPose.zero : SVPose :=
  { posX := 0, posY := 0, posZ := 0,
    rotX := 0, rotY := 0, rotZ := 0, rotW := 0, sentTime := 0 }

/-- Outgoing wire record (`ClientToServerPacket`): echoed server timestamp,
producer-reported capture latency, caller-requested extrapolation offset. -/
structure ClientToServerPacket where
  sentTime : Int
  captureLatency : Int
  additionalOffsetTime : Int
deriving DecidableEq, Repr

/-- Zero-initialized outgoing packet. -/
def ClientToServerPacket.zero : ClientToServerPacket :=
  { sentTime := 0, captureLatency := 0, additionalOffsetTime := 0 }

/-- The plugin's global mutable state (the file-scope globals of the
translation unit). -/
structure PluginState where
  SpectatorViewIP : Option String
  connectedToServer : Bool
  connectingToServer : Bool
  /-- number of live retry-loop tasks spawned by `ListenForServer` -/
  loopTasks : Nat
  additionalOffsetTime : Int
  svPose : SVPose
  sentData : ClientToServerPacket
  /-- true when `ci != nullptr`, i.e. a `CompositorInterface` object exists -/
  ci : Bool
  /-- true when `g_pD3D11Device != nullptr` -/
  device : Bool
  isRecording : Bool
  videoInitialized : Bool
  takePicture : Bool
  colorTexture : Option Nat
  UnityColorSRV : Option Nat
  outputTexture : Option Nat
  videoTexture : Option Nat
deriving DecidableEq, Repr

/-- Initial state: C++ zero-initialization of all file-scope globals. -/
def initState : PluginState :=
  { SpectatorViewIP := none
    connectedToServer := false
    connectingToServer := false
    loopTasks := 0
    additionalOffsetTime := 0
    svPose := SVPose.zero
    sentData := ClientToServerPacket.zero
    ci := false
    device := false
    isRecording := false
    videoInitialized := false
    takePicture := false
    colorTexture := none
    UnityColorSRV := none
    outputTexture := none
    videoTexture := none }

/-- Externally observable actions of a step: network traffic and calls into
the external compositor session. -/
inductive Effect where
  | connectAttempt (ip : String)
  | send (p : ClientToServerPacket)
  | updateFrameProvider
  | initVideoEncoder
  | takePicture (tex : Option Nat)
  | recordFrame (tex : Nat)
deriving DecidableEq, Repr

/-- Model of `ListenForServer`: no-op when already connecting or connected; otherwise
spawns one retry-loop task (the task body itself runs as `loopIterate`
steps). -/
def ListenForServer (s : PluginState) : PluginState :=
  if s.connectingToServer || s.connectedToServer then s
  else { s with loopTasks := s.loopTasks + 1 }

/-- One atomic iteration of the retry-loop body spawned by
`ListenForServer`.  `ok` is the environment's result of
`tcp.CreateClientListener`.  Sets `connectingToServer`, attempts a connect
only when not connected and an address is configured; on observing
`connectedToServer` clears `connectingToServer` and the task returns
(otherwise it sleeps and iterates again). -/
def loopIterate (ok : Bool) (s : PluginState) : PluginState × List Effect :=
  let s1 := { s with connectingToServer := true }
  let att :=
    match s1.connectedToServer, s1.SpectatorViewIP with
    | false, some ip => ({ s1 with connectedToServer := ok }, [Effect.connectAttempt ip])
    | _, _ => (s1, [])
  let s2 := att.1
  if s2.connectedToServer then
    ({ s2 with connectingToServer := false, loopTasks := s2.loopTasks - 1 }, att.2)
  else
    (s2, att.2)

/-- Model of `ListenForData`: when connected, sends the current `sentData` packet and
performs one blocking receive.  `recv` is the environment's result of
`tcp.ReceiveData` (`none` = failed/short read), `frameDelay` the external
`GetFrameDelayMS` value.  Returns `none` on the fault of calling
`ci->GetFrameDelayMS()` with a null `ci`. -/
def ListenForData (recv : Option SVPose) (frameDelay : Int) (s : PluginState) :
    Option (PluginState × List Effect) :=
  if s.connectedToServer then
    match recv with
    | some p =>
        -- memcpy into svPose, then refresh the outgoing packet; the
        -- captureLatency store calls through `ci`, faulting when it is null
        if s.ci then
          some ({ s with
                    svPose := p
                    sentData :=
                      { sentTime := p.sentTime
                        captureLatency := frameDelay
                        additionalOffsetTime := s.additionalOffsetTime } },
                [Effect.send s.sentData])
        else
          none
    | none =>
        -- connection has ended: drop the flag and re-arm the supervisor
        some (ListenForServer { s with connectedToServer := false },
              [Effect.send s.sentData])
  else
    some (s, [])

/-- Model of `GetPose(nsPast, pos, rot)`: stores the requested offset in the global,
performs one synchronous exchange via `ListenForData`, then returns the
(possibly updated) cached pose fields.  Result: new state, effects, position
triple, rotation quadruple; `none` models the null-`ci` fault inside
`ListenForData`. -/
def GetPose (nsPast : Int) (recv : Option SVPose) (frameDelay : Int)
    (s : PluginState) :
    Option (PluginState × List Effect × (Nat × Nat × Nat) × (Nat × Nat × Nat × Nat)) :=
  match ListenForData recv frameDelay { s with additionalOffsetTime := nsPast } with
  | none => none
  | some (s1, effs) =>
      some (s1, effs,
            (s1.svPose.posX, s1.svPose.posY, s1.svPose.posZ),
            (s1.svPose.rotX, s1.svPose.rotY, s1.svPose.rotZ, s1.svPose.rotW))

/-- Model of `SetSpectatorViewIP`: stores the endpoint address and arms the
supervisor. -/
def SetSpectatorViewIP (ip : String) (s : PluginState) : PluginState :=
  ListenForServer { s with SpectatorViewIP := some ip }

/-- Model of `OnRenderEvent`: the per-frame render callback.  Early-returns when no
compositor session exists; under the render lock and with a device bound,
advances the frame provider, lazily initializes the video encoder
(`encOk` = result of `InitializeVideoEncoder`), serves a pending one-shot
photo request, and records a video frame when recording, a video texture is
bound and the compositor reports a frame ready (`frameReady`). -/
def OnRenderEvent (encOk frameReady : Bool) (s : PluginState) :
    PluginState × List Effect :=
  if !s.ci then (s, [])
  else if !s.device then (s, [])
  else
    let e1 := [Effect.updateFrameProvider]
    let st2 :=
      if !s.videoInitialized then
        ({ s with videoInitialized := encOk }, [Effect.initVideoEncoder])
      else (s, [])
    let s2 := st2.1
    let st3 :=
      if s2.takePicture then
        ({ s2 with takePicture := false }, [Effect.takePicture s2.outputTexture])
      else (s2, [])
    let s3 := st3.1
    let st4 :=
      match s3.isRecording, s3.videoTexture, frameReady with
      | true, some vt, true => (s3, [Effect.recordFrame vt])
      | _, _, _ => (s3, [])
    (st4.1, e1 ++ st2.2 ++ st3.2 ++ st4.2)

/-- Model of `ResetSV`: under the render lock, clears all four GPU texture slots. -/
def ResetSV (s : PluginState) : PluginState :=
  { s with
      colorTexture := none
      UnityColorSRV := none
      outputTexture := none
      videoTexture := none }

/-- Model of `SetOutputRenderTexture(tex)`: binds the output slot only when it is
still null; reports whether the slot is non-null afterwards. -/
def SetOutputRenderTexture (tex : Option Nat) (s : PluginState) :
    PluginState × Bool :=
  let s1 := if s.outputTexture = none then { s with outputTexture := tex } else s
  (s1, s1.outputTexture ≠ none)

/-- Model of `SetVideoRenderTexture(tex)`: binds the video slot only when it is still
null; reports whether the slot is non-null afterwards. -/
def SetVideoRenderTexture (tex : Option Nat) (s : PluginState) :
    PluginState × Bool :=
  let s1 := if s.videoTexture = none then { s with videoTexture := tex } else s
  (s1, s1.videoTexture ≠ none)

/-- Model of `CreateUnityColorTexture`: when no SRV exists yet and a device is bound,
creates the color texture and its shader-resource view (`tex`, `srv` are the
environment results of the two creation calls, `none` = creation failed);
returns `false` on a failed creation, else `true`. -/
def CreateUnityColorTexture (tex srv : Option Nat) (s : PluginState) :
    PluginState × Bool :=
  if s.UnityColorSRV = none ∧ s.device then
    let s1 := { s with colorTexture := tex }
    match tex with
    | none => (s1, false)
    | some _ =>
        let s2 := { s1 with UnityColorSRV := srv }
        match srv with
        | none => (s2, false)
        | some _ => (s2, true)
  else
    (s, true)

/-- Model of `InitializeFrameProvider`: fails unless output texture, color SRV and
device are all present; allocates the compositor session on first success
path; `initOk` is the result of `ci->Initialize`. -/
def InitializeFrameProvider (initOk : Bool) (s : PluginState) :
    PluginState × Bool :=
  if s.outputTexture = none ∨ s.UnityColorSRV = none ∨ s.device = false then
    (s, false)
  else
    let s1 := if !s.ci then { s with ci := true } else s
    (s1, initOk)

/-- Model of `TakePicture`: sets the one-shot photo flag. -/
def TakePicture (s : PluginState) : PluginState :=
  { s with takePicture := true }

/-- Model of `StartRecording`. -/
def StartRecording (s : PluginState) : PluginState :=
  if s.videoInitialized && s.ci then { s with isRecording := true } else s

/-- Model of `StopRecording`. -/
def StopRecording (s : PluginState) : PluginState :=
  if s.videoInitialized && s.ci then { s with isRecording := false } else s

/-- Model of `OnGraphicsDeviceEvent(initialize)`: binds the D3D11 device when the
host's graphics interface provides one (`has`). -/
def OnGraphicsDeviceEvent (has : Bool) (s : PluginState) : PluginState :=
  if has then { s with device := true } else s

/-- The operations of the plugin, each with the environment inputs its step
consumes. -/
inductive Event where
  | setIP (ip : String)
  | startSupervisor
  | loopIter (ok : Bool)
  | getPose (nsPast : Int) (recv : Option SVPose) (frameDelay : Int)
  | deviceInit (has : Bool)
  | renderEvent (encOk frameReady : Bool)
  | resetSV
  | setOutputTexture (tex : Option Nat)
  | setVideoTexture (tex : Option Nat)
  | createColorTexture (tex srv : Option Nat)
  | initFrameProvider (initOk : Bool)
  | takePictureReq
  | startRec
  | stopRec
deriving DecidableEq, Repr

/-- One atomic step of the system; `none` is a fault (null-pointer call). -/
def step (e : Event) (s : PluginState) : Option (PluginState × List Effect) :=
  match e with
  | Event.setIP ip => some (SetSpectatorViewIP ip s, [])
  | Event.startSupervisor => some (ListenForServer s, [])
  | Event.loopIter ok => some (loopIterate ok s)
  | Event.getPose n recv fd =>
      match GetPose n recv fd s with
      | none => none
      | some (s1, effs, _, _) => some (s1, effs)
  | Event.deviceInit has => some (OnGraphicsDeviceEvent has s, [])
  | Event.renderEvent encOk frameReady => some (OnRenderEvent encOk frameReady s)
  | Event.resetSV => some (ResetSV s, [])
  | Event.setOutputTexture t => some ((SetOutputRenderTexture t s).1, [])
  | Event.setVideoTexture t => some ((SetVideoRenderTexture t s).1, [])
  | Event.createColorTexture t sv => some ((CreateUnityColorTexture t sv s).1, [])
  | Event.initFrameProvider ok => some ((InitializeFrameProvider ok s).1, [])
  | Event.takePictureReq => some (TakePicture s, [])
  | Event.startRec => some (StartRecording s, [])
  | Event.stopRec => some (StopRecording s, [])

/-- States reachable from the zero-initialized globals by non-faulting
steps; a retry-loop iteration requires a live loop task. -/
inductive Reachable : PluginState → Prop where
  | init : Reachable initState
  | step {s s' : PluginState} {e : Event} {effs : List Effect} :
      Reachable s →
      (∀ ok, e = Event.loopIter ok → s.loopTasks ≠ 0) →
      step e s = some (s', effs) →
      Reachable s'

/-- The spec's connection-state enumeration, read off the two booleans. -/
inductive ConnState where
  | Disconnected
  | Connecting
  | Connected
deriving DecidableEq, Repr

/-- Connection state as determined by the two flags. -/
def connStateOf (s : PluginState) : ConnState :=
  if s.connectedToServer then ConnState.Connected
  else if s.connectingToServer then ConnState.Connecting
  else ConnState.Disconnected

/-- States reachable from the zero-initialized globals by runs in which no
successful receive has happened: every pose query either ran disconnected or
had its receive fail. -/
inductive ReachableNoRecv : PluginState → Prop where
  | init : ReachableNoRecv initState
  | step {s s' : PluginState} {e : Event} {effs : List Effect} :
      ReachableNoRecv s →
      (∀ ok, e = Event.loopIter ok → s.loopTasks ≠ 0) →
      (∀ n recv fd, e = Event.getPose n recv fd →
        s.connectedToServer = false ∨ recv = none) →
      step e s = some (s', effs) →
      ReachableNoRecv s'

/-- The spec's scenario pose: position `(1,2,3)`, orientation `(0,0,0,1)`
(as raw field patterns), `sentTime = 42`. -/
def peerPose : SVPose :=
  { posX := 1, posY := 2, posZ := 3,
    rotX := 0, rotY := 0, rotZ := 0, rotW := 1, sentTime := 42 }

/-- Concrete run: endpoint configured from the initial state. -/
def stAfterIP : PluginState := SetSpectatorViewIP "10.0.0.1" initState

/-- Concrete run: the retry loop's connect attempt succeeded. -/
def stConnected : PluginState := (loopIterate true stAfterIP).1

/-- Concrete run: the host's graphics device became available. -/
def stDevice : PluginState := OnGraphicsDeviceEvent true initState

/-- Concrete run: color texture and its SRV were created. -/
def stColor : PluginState := (CreateUnityColorTexture (some 10) (some 11) stDevice).1

/-- Concrete run: output texture bound. -/
def stOutput : PluginState := (SetOutputRenderTexture (some 12) stColor).1

/-- Concrete run: frame provider initialized, so a compositor session
exists. -/
def stCI : PluginState := (InitializeFrameProvider true stOutput).1

/-- Concrete run: endpoint configured after the compositor session exists. -/
def stArmed : PluginState := SetSpectatorViewIP "192.168.0.5" stCI

/-- Concrete run: connected with a live compositor session. -/
def stReady : PluginState := (loopIterate true stArmed).1

/-- Concrete run: all four texture slots cleared after the compositor
session was created. -/
def stAfterReset : PluginState := ResetSV stCI

/-- Concrete run: supervisor started with no endpoint address
configured. -/
def stNoAddrStart : PluginState := ListenForServer initState

/-- Concrete run: one iteration of the retry loop with no address. -/
def stNoAddrLoop : PluginState := (loopIterate false stNoAddrStart).1

/-! ### Flag behaviour of the individual operations -/

theorem ListenForServer_connecting (s : PluginState) :
    (ListenForServer s).connectingToServer = s.connectingToServer := by
  unfold ListenForServer; split <;> rfl

theorem ListenForServer_connected (s : PluginState) :
    (ListenForServer s).connectedToServer = s.connectedToServer := by
  unfold ListenForServer; split <;> rfl

theorem ListenForServer_svPose (s : PluginState) :
    (ListenForServer s).svPose = s.svPose := by
  unfold ListenForServer; split <;> rfl

theorem loopIterate_mutex (ok : Bool) (s : PluginState) :
    (loopIterate ok s).1.connectingToServer = true →
    (loopIterate ok s).1.connectedToServer = false := by
  obtain ⟨ip, cd, cg, lt, ao, sp, sd, ci, dv, ir, vi, tp, ct, sv, ot, vt⟩ := s
  cases cd <;> rcases ip with _ | ip <;> cases ok <;> simp [loopIterate]

theorem OnRenderEvent_state (a b : Bool) (s : PluginState) :
    (OnRenderEvent a b s).1 =
      { s with
          videoInitialized :=
            if s.ci ∧ s.device ∧ !s.videoInitialized then a else s.videoInitialized
          takePicture :=
            if s.ci ∧ s.device then false else s.takePicture } := by
  obtain ⟨ip, cd, cg, lt, ao, sp, sd, ci, dv, ir, vi, tp, ct, sv, ot, vt⟩ := s
  cases ci <;> cases dv <;> cases vi <;> cases tp <;> cases ir <;>
    rcases vt with _ | vt <;> cases b <;> simp [OnRenderEvent]

theorem SetOutputRenderTexture_flags (t : Option Nat) (s : PluginState) :
    (SetOutputRenderTexture t s).1.connectingToServer = s.connectingToServer ∧
    (SetOutputRenderTexture t s).1.connectedToServer = s.connectedToServer := by
  unfold SetOutputRenderTexture
  dsimp only
  split <;> simp

theorem SetVideoRenderTexture_flags (t : Option Nat) (s : PluginState) :
    (SetVideoRenderTexture t s).1.connectingToServer = s.connectingToServer ∧
    (SetVideoRenderTexture t s).1.connectedToServer = s.connectedToServer := by
  unfold SetVideoRenderTexture
  dsimp only
  split <;> simp

theorem CreateUnityColorTexture_flags (tex srv : Option Nat) (s : PluginState) :
    (CreateUnityColorTexture tex srv s).1.connectingToServer = s.connectingToServer ∧
    (CreateUnityColorTexture tex srv s).1.connectedToServer = s.connectedToServer := by
  obtain ⟨ip, cd, cg, lt, ao, sp, sd, ci, dv, ir, vi, tp, ct, sv, ot, vt⟩ := s
  rcases sv with _ | sv0 <;> cases dv <;> rcases tex with _ | t0 <;>
    rcases srv with _ | r0 <;> simp [CreateUnityColorTexture]

theorem InitializeFrameProvider_flags (ok : Bool) (s : PluginState) :
    (InitializeFrameProvider ok s).1.connectingToServer = s.connectingToServer ∧
    (InitializeFrameProvider ok s).1.connectedToServer = s.connectedToServer := by
  obtain ⟨ip, cd, cg, lt, ao, sp, sd, ci, dv, ir, vi, tp, ct, sv, ot, vt⟩ := s
  rcases ot with _ | o0 <;> rcases sv with _ | sv0 <;> cases dv <;> cases ci <;>
    simp [InitializeFrameProvider]

theorem StartRecording_flags (s : PluginState) :
    (StartRecording s).connectingToServer = s.connectingToServer ∧
    (StartRecording s).connectedToServer = s.connectedToServer := by
  obtain ⟨ip, cd, cg, lt, ao, sp, sd, ci, dv, ir, vi, tp, ct, sv, ot, vt⟩ := s
  cases vi <;> cases ci <;> simp [StartRecording]

theorem StopRecording_flags (s : PluginState) :
    (StopRecording s).connectingToServer = s.connectingToServer ∧
    (StopRecording s).connectedToServer = s.connectedToServer := by
  obtain ⟨ip, cd, cg, lt, ao, sp, sd, ci, dv, ir, vi, tp, ct, sv, ot, vt⟩ := s
  cases vi <;> cases ci <;> simp [StopRecording]

theorem OnGraphicsDeviceEvent_flags (h : Bool) (s : PluginState) :
    (OnGraphicsDeviceEvent h s).connectingToServer = s.connectingToServer ∧
    (OnGraphicsDeviceEvent h s).connectedToServer = s.connectedToServer := by
  cases h <;> simp [OnGraphicsDeviceEvent]

theorem ListenForData_flags {recv : Option SVPose} {fd : Int}
    {s s' : PluginState} {effs : List Effect}
    (h : ListenForData recv fd s = some (s', effs)) :
    s'.connectingToServer = s.connectingToServer ∧
    (s'.connectedToServer = s.connectedToServer ∨ s'.connectedToServer = false) := by
  cases hcd : s.connectedToServer with
  | false =>
      simp only [ListenForData, hcd, Bool.false_eq_true, if_false,
        Option.some.injEq, Prod.mk.injEq] at h
      obtain ⟨h1, -⟩ := h
      subst h1
      exact ⟨rfl, Or.inl hcd⟩
  | true =>
      cases recv with
      | some p =>
          cases hci : s.ci with
          | false => simp [ListenForData, hcd, hci] at h
          | true =>
              simp only [ListenForData, hcd, hci, if_true,
                Option.some.injEq, Prod.mk.injEq] at h
              obtain ⟨h1, -⟩ := h
              subst h1
              exact ⟨rfl, Or.inl rfl⟩
      | none =>
          simp only [ListenForData, hcd, if_true,
            Option.some.injEq, Prod.mk.injEq] at h
          obtain ⟨h1, -⟩ := h
          subst h1
          refine ⟨?_, Or.inr ?_⟩
          · simp [ListenForServer_connecting]
          · simp [ListenForServer_connected]

theorem GetPose_flags {n : Int} {recv : Option SVPose} {fd : Int}
    {s : PluginState}
    {r : PluginState × List Effect × (Nat × Nat × Nat) × (Nat × Nat × Nat × Nat)}
    (h : GetPose n recv fd s = some r) :
    r.1.connectingToServer = s.connectingToServer ∧
    (r.1.connectedToServer = s.connectedToServer ∨ r.1.connectedToServer = false) := by
  unfold GetPose at h
  cases hld : ListenForData recv fd { s with additionalOffsetTime := n } with
  | none => rw [hld] at h; cases h
  | some q =>
      obtain ⟨s1, effs1⟩ := q
      rw [hld] at h
      simp only [Option.some.injEq] at h
      subst h
      have hf := ListenForData_flags hld
      exact hf

/-- Every step either leaves `connectingToServer` unchanged while only ever
clearing `connectedToServer`, or (for a retry-loop iteration) directly
re-establishes the flag exclusion. -/
theorem step_flags {e : Event} {s s' : PluginState} {effs : List Effect}
    (h : step e s = some (s', effs)) :
    (s'.connectingToServer = s.connectingToServer ∧
      (s'.connectedToServer = s.connectedToServer ∨ s'.connectedToServer = false)) ∨
    (s'.connectingToServer = true → s'.connectedToServer = false) := by
  cases e with
  | setIP ip =>
      left
      simp only [step, Option.some.injEq, Prod.mk.injEq] at h
      obtain ⟨h1, -⟩ := h
      subst h1
      exact ⟨by simp [SetSpectatorViewIP, ListenForServer_connecting],
             Or.inl (by simp [SetSpectatorViewIP, ListenForServer_connected])⟩
  | startSupervisor =>
      left
      simp only [step, Option.some.injEq, Prod.mk.injEq] at h
      obtain ⟨h1, -⟩ := h
      subst h1
      exact ⟨ListenForServer_connecting s, Or.inl (ListenForServer_connected s)⟩
  | loopIter ok =>
      right
      simp only [step, Option.some.injEq] at h
      have h1 : (loopIterate ok s).1 = s' := by rw [h]
      subst h1
      exact loopIterate_mutex ok s
  | getPose n recv fd =>
      left
      simp only [step] at h
      cases hg : GetPose n recv fd s with
      | none => rw [hg] at h; cases h
      | some r =>
          rw [hg] at h
          simp only [Option.some.injEq, Prod.mk.injEq] at h
          obtain ⟨h1, -⟩ := h
          subst h1
          exact GetPose_flags hg
  | deviceInit hs =>
      left
      simp only [step, Option.some.injEq, Prod.mk.injEq] at h
      obtain ⟨h1, -⟩ := h
      subst h1
      exact ⟨(OnGraphicsDeviceEvent_flags hs s).1, Or.inl (OnGraphicsDeviceEvent_flags hs s).2⟩
  | renderEvent a b =>
      left
      simp only [step, Option.some.injEq] at h
      have h1 : (OnRenderEvent a b s).1 = s' := by rw [h]
      subst h1
      rw [OnRenderEvent_state]
      exact ⟨rfl, Or.inl rfl⟩
  | resetSV =>
      left
      simp only [step, Option.some.injEq, Prod.mk.injEq] at h
      obtain ⟨h1, -⟩ := h
      subst h1
      exact ⟨rfl, Or.inl rfl⟩
  | setOutputTexture t =>
      left
      simp only [step, Option.some.injEq, Prod.mk.injEq] at h
      obtain ⟨h1, -⟩ := h
      subst h1
      exact ⟨(SetOutputRenderTexture_flags t s).1, Or.inl (SetOutputRenderTexture_flags t s).2⟩
  | setVideoTexture t =>
      left
      simp only [step, Option.some.injEq, Prod.mk.injEq] at h
      obtain ⟨h1, -⟩ := h
      subst h1
      exact ⟨(SetVideoRenderTexture_flags t s).1, Or.inl (SetVideoRenderTexture_flags t s).2⟩
  | createColorTexture t sv =>
      left
      simp only [step, Option.some.injEq, Prod.mk.injEq] at h
      obtain ⟨h1, -⟩ := h
      subst h1
      exact ⟨(CreateUnityColorTexture_flags t sv s).1, Or.inl (CreateUnityColorTexture_flags t sv s).2⟩
  | initFrameProvider ok =>
      left
      simp only [step, Option.some.injEq, Prod.mk.injEq] at h
      obtain ⟨h1, -⟩ := h
      subst h1
      exact ⟨(InitializeFrameProvider_flags ok s).1, Or.inl (InitializeFrameProvider_flags ok s).2⟩
  | takePictureReq =>
      left
      simp only [step, Option.some.injEq, Prod.mk.injEq] at h
      obtain ⟨h1, -⟩ := h
      subst h1
      exact ⟨rfl, Or.inl rfl⟩
  | startRec =>
      left
      simp only [step, Option.some.injEq, Prod.mk.injEq] at h
      obtain ⟨h1, -⟩ := h
      subst h1
      exact ⟨(StartRecording_flags s).1, Or.inl (StartRecording_flags s).2⟩
  | stopRec =>
      left
      simp only [step, Option.some.injEq, Prod.mk.injEq] at h
      obtain ⟨h1, -⟩ := h
      subst h1
      exact ⟨(StopRecording_flags s).1, Or.inl (StopRecording_flags s).2⟩

/-- Flag-exclusion invariant: in every reachable state, `connectingToServer`
implies `¬ connectedToServer`. -/
theorem reachable_flags_mutex {s : PluginState} (h : Reachable s) :
    s.connectingToServer = true → s.connectedToServer = false := by
  induction h with
  | init => intro _; rfl
  | step hr hl hs ih =>
      rcases step_flags hs with ⟨hcg, hcd⟩ | hmx
      · intro hc
        rcases hcd with hcd | hcd
        · rw [hcd]; exact ih (by rw [← hcg]; exact hc)
        · exact hcd
      · exact hmx

/-! ### Reachability of the concrete run states -/

theorem reach_stAfterIP : Reachable stAfterIP :=
  @Reachable.step initState stAfterIP (Event.setIP "10.0.0.1") []
    Reachable.init (fun _ h => by cases h) rfl

theorem reach_stConnected : Reachable stConnected :=
  @Reachable.step stAfterIP stConnected (Event.loopIter true)
    (loopIterate true stAfterIP).2
    reach_stAfterIP (fun _ _ => by decide) rfl

theorem reach_stDevice : Reachable stDevice :=
  @Reachable.step initState stDevice (Event.deviceInit true) []
    Reachable.init (fun _ h => by cases h) rfl

theorem reach_stColor : Reachable stColor :=
  @Reachable.step stDevice stColor (Event.createColorTexture (some 10) (some 11)) []
    reach_stDevice (fun _ h => by cases h) rfl

theorem reach_stOutput : Reachable stOutput :=
  @Reachable.step stColor stOutput (Event.setOutputTexture (some 12)) []
    reach_stColor (fun _ h => by cases h) rfl

theorem reach_stCI : Reachable stCI :=
  @Reachable.step stOutput stCI (Event.initFrameProvider true) []
    reach_stOutput (fun _ h => by cases h) rfl

theorem reach_stArmed : Reachable stArmed :=
  @Reachable.step stCI stArmed (Event.setIP "192.168.0.5") []
    reach_stCI (fun _ h => by cases h) rfl

theorem reach_stReady : Reachable stReady :=
  @Reachable.step stArmed stReady (Event.loopIter true)
    (loopIterate true stArmed).2
    reach_stArmed (fun _ _ => by decide) rfl

theorem reach_stAfterReset : Reachable stAfterReset :=
  @Reachable.step stCI stAfterReset Event.resetSV []
    reach_stCI (fun _ h => by cases h) rfl

theorem reach_stNoAddrStart : Reachable stNoAddrStart :=
  @Reachable.step initState stNoAddrStart Event.startSupervisor []
    Reachable.init (fun _ h => by cases h) rfl

theorem reach_stNoAddrLoop : Reachable stNoAddrLoop :=
  @Reachable.step stNoAddrStart stNoAddrLoop (Event.loopIter false)
    (loopIterate false stNoAddrStart).2
    reach_stNoAddrStart (fun _ _ => by decide) rfl

/-! ### Evaluation of one pose exchange, by case -/

/-- Disconnected exchange: no I/O, only the offset global changes, the
cached pose fields are returned. -/
theorem GetPose_not_connected_eq (s : PluginState) (n fd : Int)
    (recv : Option SVPose) (hc : s.connectedToServer = false) :
    GetPose n recv fd s =
      some ({ s with additionalOffsetTime := n }, [],
            (s.svPose.posX, s.svPose.posY, s.svPose.posZ),
            (s.svPose.rotX, s.svPose.rotY, s.svPose.rotZ, s.svPose.rotW)) := by
  unfold GetPose ListenForData
  simp [hc]

/-- Connected exchange with a successful receive and a live compositor
session: the stale packet is sent, the cached pose is overwritten wholesale
and the outgoing packet refreshed. -/
theorem GetPose_recv_some_eq (s : PluginState) (n fd : Int) (p : SVPose)
    (hc : s.connectedToServer = true) (hci : s.ci = true) :
    GetPose n (some p) fd s =
      some ({ s with
                additionalOffsetTime := n
                svPose := p
                sentData := { sentTime := p.sentTime, captureLatency := fd,
                              additionalOffsetTime := n } },
            [Effect.send s.sentData],
            (p.posX, p.posY, p.posZ),
            (p.rotX, p.rotY, p.rotZ, p.rotW)) := by
  unfold GetPose ListenForData
  simp [hc, hci]

/-- Connected exchange whose receive fails: the stale packet was sent, the
connected flag falls, the supervisor is re-armed, the cached pose fields are
returned. -/
theorem GetPose_recv_none_eq (s : PluginState) (n fd : Int)
    (hc : s.connectedToServer = true) :
    GetPose n none fd s =
      some (ListenForServer
              { s with additionalOffsetTime := n, connectedToServer := false },
            [Effect.send s.sentData],
            (s.svPose.posX, s.svPose.posY, s.svPose.posZ),
            (s.svPose.rotX, s.svPose.rotY, s.svPose.rotZ, s.svPose.rotW)) := by
  unfold GetPose ListenForData
  simp [hc, ListenForServer_svPose]

/-! ### Pose-cache preservation -/

theorem loopIterate_svPose (ok : Bool) (s : PluginState) :
    (loopIterate ok s).1.svPose = s.svPose := by
  obtain ⟨ip, cd, cg, lt, ao, sp, sd, ci, dv, ir, vi, tp, ct, sv, ot, vt⟩ := s
  cases cd <;> rcases ip with _ | ip <;> cases ok <;> simp [loopIterate]

theorem SetOutputRenderTexture_svPose (t : Option Nat) (s : PluginState) :
    (SetOutputRenderTexture t s).1.svPose = s.svPose := by
  obtain ⟨ip, cd, cg, lt, ao, sp, sd, ci, dv, ir, vi, tp, ct, sv, ot, vt⟩ := s
  rcases ot with _ | o0 <;> simp [SetOutputRenderTexture]

theorem SetVideoRenderTexture_svPose (t : Option Nat) (s : PluginState) :
    (SetVideoRenderTexture t s).1.svPose = s.svPose := by
  obtain ⟨ip, cd, cg, lt, ao, sp, sd, ci, dv, ir, vi, tp, ct, sv, ot, vt⟩ := s
  rcases vt with _ | v0 <;> simp [SetVideoRenderTexture]

theorem CreateUnityColorTexture_svPose (tex srv : Option Nat) (s : PluginState) :
    (CreateUnityColorTexture tex srv s).1.svPose = s.svPose := by
  obtain ⟨ip, cd, cg, lt, ao, sp, sd, ci, dv, ir, vi, tp, ct, sv, ot, vt⟩ := s
  rcases sv with _ | sv0 <;> cases dv <;> rcases tex with _ | t0 <;>
    rcases srv with _ | r0 <;> simp [CreateUnityColorTexture]

theorem InitializeFrameProvider_svPose (ok : Bool) (s : PluginState) :
    (InitializeFrameProvider ok s).1.svPose = s.svPose := by
  obtain ⟨ip, cd, cg, lt, ao, sp, sd, ci, dv, ir, vi, tp, ct, sv, ot, vt⟩ := s
  rcases ot with _ | o0 <;> rcases sv with _ | sv0 <;> cases dv <;> cases ci <;>
    simp [InitializeFrameProvider]

theorem StartRecording_svPose (s : PluginState) :
    (StartRecording s).svPose = s.svPose := by
  obtain ⟨ip, cd, cg, lt, ao, sp, sd, ci, dv, ir, vi, tp, ct, sv, ot, vt⟩ := s
  cases vi <;> cases ci <;> simp [StartRecording]

theorem StopRecording_svPose (s : PluginState) :
    (StopRecording s).svPose = s.svPose := by
  obtain ⟨ip, cd, cg, lt, ao, sp, sd, ci, dv, ir, vi, tp, ct, sv, ot, vt⟩ := s
  cases vi <;> cases ci <;> simp [StopRecording]

theorem OnGraphicsDeviceEvent_svPose (h : Bool) (s : PluginState) :
    (OnGraphicsDeviceEvent h s).svPose = s.svPose := by
  cases h <;> simp [OnGraphicsDeviceEvent]

/-- A step that is not a successful receive leaves the cached pose
unchanged. -/
theorem step_svPose {e : Event} {s s' : PluginState} {effs : List Effect}
    (h : step e s = some (s', effs))
    (hnr : ∀ n recv fd, e = Event.getPose n recv fd →
      s.connectedToServer = false ∨ recv = none) :
    s'.svPose = s.svPose := by
  cases e with
  | setIP ip =>
      simp only [step, Option.some.injEq, Prod.mk.injEq] at h
      obtain ⟨h1, -⟩ := h
      subst h1
      simp [SetSpectatorViewIP, ListenForServer_svPose]
  | startSupervisor =>
      simp only [step, Option.some.injEq, Prod.mk.injEq] at h
      obtain ⟨h1, -⟩ := h
      subst h1
      exact ListenForServer_svPose s
  | loopIter ok =>
      simp only [step, Option.some.injEq] at h
      have h1 : (loopIterate ok s).1 = s' := by rw [h]
      subst h1
      exact loopIterate_svPose ok s
  | getPose n recv fd =>
      have hq := hnr n recv fd rfl
      rcases hq with hc | hr
      · rw [step, GetPose_not_connected_eq s n fd recv hc] at h
        simp only [Option.some.injEq, Prod.mk.injEq] at h
        obtain ⟨h1, -⟩ := h
        subst h1
        rfl
      · subst hr
        cases hcd : s.connectedToServer with
        | false =>
            rw [step, GetPose_not_connected_eq s n fd none hcd] at h
            simp only [Option.some.injEq, Prod.mk.injEq] at h
            obtain ⟨h1, -⟩ := h
            subst h1
            rfl
        | true =>
            rw [step, GetPose_recv_none_eq s n fd hcd] at h
            simp only [Option.some.injEq, Prod.mk.injEq] at h
            obtain ⟨h1, -⟩ := h
            subst h1
            simp [ListenForServer_svPose]
  | deviceInit hs =>
      simp only [step, Option.some.injEq, Prod.mk.injEq] at h
      obtain ⟨h1, -⟩ := h
      subst h1
      exact OnGraphicsDeviceEvent_svPose hs s
  | renderEvent a b =>
      simp only [step, Option.some.injEq] at h
      have h1 : (OnRenderEvent a b s).1 = s' := by rw [h]
      subst h1
      rw [OnRenderEvent_state]
  | resetSV =>
      simp only [step, Option.some.injEq, Prod.mk.injEq] at h
      obtain ⟨h1, -⟩ := h
      subst h1
      rfl
  | setOutputTexture t =>
      simp only [step, Option.some.injEq, Prod.mk.injEq] at h
      obtain ⟨h1, -⟩ := h
      subst h1
      exact SetOutputRenderTexture_svPose t s
  | setVideoTexture t =>
      simp only [step, Option.some.injEq, Prod.mk.injEq] at h
      obtain ⟨h1, -⟩ := h
      subst h1
      exact SetVideoRenderTexture_svPose t s
  | createColorTexture t sv =>
      simp only [step, Option.some.injEq, Prod.mk.injEq] at h
      obtain ⟨h1, -⟩ := h
      subst h1
      exact CreateUnityColorTexture_svPose t sv s
  | initFrameProvider ok =>
      simp only [step, Option.some.injEq, Prod.mk.injEq] at h
      obtain ⟨h1, -⟩ := h
      subst h1
      exact InitializeFrameProvider_svPose ok s
  | takePictureReq =>
      simp only [step, Option.some.injEq, Prod.mk.injEq] at h
      obtain ⟨h1, -⟩ := h
      subst h1
      rfl
  | startRec =>
      simp only [step, Option.some.injEq, Prod.mk.injEq] at h
      obtain ⟨h1, -⟩ := h
      subst h1
      exact StartRecording_svPose s
  | stopRec =>
      simp only [step, Option.some.injEq, Prod.mk.injEq] at h
      obtain ⟨h1, -⟩ := h
      subst h1
      exact StopRecording_svPose s

/-- Before any successful receive, the cached pose is still the
zero-initialized record. -/
theorem reachableNoRecv_svPose {s : PluginState} (h : ReachableNoRecv s) :
    s.svPose = SVPose.zero := by
  induction h with
  | init => rfl
  | step hr hl hnr hs ih => rw [step_svPose hs hnr, ih]

/-! ### The claims -/

/-- Claim C1: for every reachable state under any sequence of operations,
the "connecting" and "connected" flags are never simultaneously true, and
both are false exactly when the connection state reads Disconnected. -/
theorem claim_C1_flags_mutex (s : PluginState) (h : Reachable s) :
    ¬(s.connectingToServer = true ∧ s.connectedToServer = true) ∧
    ((s.connectingToServer = false ∧ s.connectedToServer = false) ↔
      connStateOf s = ConnState.Disconnected) := by
  constructor
  · rintro ⟨hc, hd⟩
    have hx := reachable_flags_mutex h hc
    rw [hx] at hd
    simp at hd
  · constructor
    · rintro ⟨hc, hd⟩
      simp [connStateOf, hc, hd]
    · intro hds
      by_cases hd : s.connectedToServer
      · simp [connStateOf, hd] at hds
      · by_cases hcg : s.connectingToServer
        · simp [connStateOf, hd, hcg] at hds
        · exact ⟨by simpa using hcg, by simpa using hd⟩

/-- Witness for C1 at the initial state. -/
theorem claim_C1_flags_mutex_witness :
    Reachable initState ∧
    (¬(initState.connectingToServer = true ∧ initState.connectedToServer = true) ∧
     ((initState.connectingToServer = false ∧ initState.connectedToServer = false) ↔
       connStateOf initState = ConnState.Disconnected)) :=
  ⟨Reachable.init, claim_C1_flags_mutex initState Reachable.init⟩

/-- Claim C2 is refuted: the state with the connection established but no
compositor session yet is reachable, and there a pose query whose receive
succeeds faults (null `ci` dereference in `ListenForData`). -/
theorem claim_C2_counterexample :
    Reachable stConnected ∧
    stConnected.connectedToServer = true ∧
    stConnected.ci = false ∧
    GetPose 0 (some peerPose) 0 stConnected = none :=
  ⟨reach_stConnected, rfl, rfl, rfl⟩

/-- Claim C2 (amended): the pose query completes and returns a pose for
every offset whenever a compositor session exists, or the state is
disconnected, or the receive does not succeed; only the
connected-no-session state with a successful receive faults. -/
theorem claim_C2_amended_getPose_total (s : PluginState) (n fd : Int)
    (recv : Option SVPose)
    (h : s.ci = true ∨ s.connectedToServer = false ∨ recv = none) :
    ∃ r, GetPose n recv fd s = some r := by
  rcases h with hci | hc | hr
  · cases hcd : s.connectedToServer with
    | false => exact ⟨_, GetPose_not_connected_eq s n fd recv hcd⟩
    | true =>
        cases recv with
        | some p => exact ⟨_, GetPose_recv_some_eq s n fd p hcd hci⟩
        | none => exact ⟨_, GetPose_recv_none_eq s n fd hcd⟩
  · exact ⟨_, GetPose_not_connected_eq s n fd recv hc⟩
  · subst hr
    cases hcd : s.connectedToServer with
    | false => exact ⟨_, GetPose_not_connected_eq s n fd none hcd⟩
    | true => exact ⟨_, GetPose_recv_none_eq s n fd hcd⟩

/-- Witness for the amended C2 at the disconnected initial state. -/
theorem claim_C2_amended_witness :
    initState.connectedToServer = false ∧
    ∃ r, GetPose 5 (some peerPose) 0 initState = some r :=
  ⟨rfl, claim_C2_amended_getPose_total initState 5 0 (some peerPose)
    (Or.inr (Or.inl rfl))⟩

/-- Claim C3: a pose query while not connected performs no network send or
receive (empty effect list), changes only the offset global, and returns
exactly the cached pose. -/
theorem claim_C3_disconnected_query (s : PluginState) (n fd : Int)
    (recv : Option SVPose) (hc : s.connectedToServer = false) :
    GetPose n recv fd s =
      some ({ s with additionalOffsetTime := n }, [],
            (s.svPose.posX, s.svPose.posY, s.svPose.posZ),
            (s.svPose.rotX, s.svPose.rotY, s.svPose.rotZ, s.svPose.rotW)) ∧
    ({ s with additionalOffsetTime := n } : PluginState).svPose = s.svPose :=
  ⟨GetPose_not_connected_eq s n fd recv hc, rfl⟩

/-- Witness for C3 at the initial state. -/
theorem claim_C3_witness :
    initState.connectedToServer = false ∧
    (GetPose 123 (some peerPose) 0 initState =
      some ({ initState with additionalOffsetTime := 123 }, [],
            (initState.svPose.posX, initState.svPose.posY, initState.svPose.posZ),
            (initState.svPose.rotX, initState.svPose.rotY,
             initState.svPose.rotZ, initState.svPose.rotW)) ∧
     ({ initState with additionalOffsetTime := 123 } : PluginState).svPose =
       initState.svPose) :=
  ⟨rfl, claim_C3_disconnected_query initState 123 0 (some peerPose) rfl⟩

/-- Claim C4: a connected pose query whose receive succeeds overwrites the
cached pose bit-for-bit with the received record, returns exactly the
received position and quaternion, and copies the received `sentTime` into
the next outgoing packet. -/
theorem claim_C4_recv_overwrites (s : PluginState) (n fd : Int) (p : SVPose)
    (hc : s.connectedToServer = true) (hci : s.ci = true) :
    ∃ s' : PluginState,
      GetPose n (some p) fd s =
        some (s', [Effect.send s.sentData],
              (p.posX, p.posY, p.posZ), (p.rotX, p.rotY, p.rotZ, p.rotW)) ∧
      s'.svPose = p ∧
      s'.sentData.sentTime = p.sentTime :=
  ⟨_, GetPose_recv_some_eq s n fd p hc hci, rfl, rfl⟩

/-- Witness for C4: the spec's scenario pose received while connected with
a live compositor session. -/
theorem claim_C4_witness :
    stReady.connectedToServer = true ∧ stReady.ci = true ∧
    ∃ s', GetPose 1000000 (some peerPose) 7 stReady =
        some (s', [Effect.send stReady.sentData],
              (peerPose.posX, peerPose.posY, peerPose.posZ),
              (peerPose.rotX, peerPose.rotY, peerPose.rotZ, peerPose.rotW)) ∧
      s'.svPose = peerPose ∧
      s'.sentData.sentTime = peerPose.sentTime :=
  ⟨rfl, rfl, claim_C4_recv_overwrites stReady 1000000 7 peerPose rfl rfl⟩

/-- Claim C5 is refuted: in a reachable connected state whose outgoing
packet still holds offset 0, `GetPose 5` transmits a record carrying
offset 0, not 5 — the requested offset is copied into the packet only after
the receive. -/
theorem claim_C5_counterexample :
    Reachable stReady ∧
    stReady.connectedToServer = true ∧
    (GetPose 5 (some peerPose) 9 stReady).map (fun r => r.2.1) =
      some [Effect.send
        { sentTime := 0, captureLatency := 0, additionalOffsetTime := 0 }] ∧
    (0 : Int) ≠ 5 :=
  ⟨reach_stReady, rfl, rfl, by decide⟩

/-- Claim C5 (amended): the offset `n` of a connected query is stored in
the offset global before the send, but the record transmitted during that
same call is the pre-call `sentData` (carrying the previously recorded
offset); after a successful receive the outgoing record is refreshed to
carry `n`, so the next exchange transmits it. -/
theorem claim_C5_amended_offset_lag (s : PluginState) (n fd : Int)
    (p : SVPose) (hc : s.connectedToServer = true) (hci : s.ci = true) :
    ∃ s' pos rot,
      GetPose n (some p) fd s = some (s', [Effect.send s.sentData], pos, rot) ∧
      s'.additionalOffsetTime = n ∧
      s'.sentData.additionalOffsetTime = n :=
  ⟨_, _, _, GetPose_recv_some_eq s n fd p hc hci, rfl, rfl⟩

/-- Witness for the amended C5 in the connected state with a session. -/
theorem claim_C5_amended_witness :
    stReady.connectedToServer = true ∧ stReady.ci = true ∧
    ∃ s' pos rot,
      GetPose 5 (some peerPose) 9 stReady =
        some (s', [Effect.send stReady.sentData], pos, rot) ∧
      s'.additionalOffsetTime = 5 ∧
      s'.sentData.additionalOffsetTime = 5 :=
  ⟨rfl, rfl, claim_C5_amended_offset_lag stReady 5 9 peerPose rfl rfl⟩

/-- Claim C6: when the receive of a connected pose query fails, the
connected flag falls, the supervisor is re-armed (one new retry-loop task),
the query returns the unchanged cached pose, and exactly one send and no
retry happened. -/
theorem claim_C6_recvFail (s : PluginState) (n fd : Int)
    (h : Reachable s) (hc : s.connectedToServer = true) :
    ∃ s' : PluginState,
      GetPose n none fd s =
        some (s', [Effect.send s.sentData],
              (s.svPose.posX, s.svPose.posY, s.svPose.posZ),
              (s.svPose.rotX, s.svPose.rotY, s.svPose.rotZ, s.svPose.rotW)) ∧
      s'.connectedToServer = false ∧
      s'.loopTasks = s.loopTasks + 1 ∧
      s'.svPose = s.svPose := by
  have hcg : s.connectingToServer = false := by
    cases hx : s.connectingToServer with
    | false => rfl
    | true =>
        have hm := reachable_flags_mutex h hx
        rw [hm] at hc
        simp at hc
  refine ⟨ListenForServer
            { s with additionalOffsetTime := n, connectedToServer := false },
          GetPose_recv_none_eq s n fd hc, ?_, ?_, ?_⟩
  · simp [ListenForServer_connected]
  · simp [ListenForServer, hcg]
  · simp [ListenForServer_svPose]

/-- Witness for C6 at the reachable connected state. -/
theorem claim_C6_witness :
    Reachable stConnected ∧
    stConnected.connectedToServer = true ∧
    ∃ s', GetPose 7 none 0 stConnected =
        some (s', [Effect.send stConnected.sentData],
              (stConnected.svPose.posX, stConnected.svPose.posY,
               stConnected.svPose.posZ),
              (stConnected.svPose.rotX, stConnected.svPose.rotY,
               stConnected.svPose.rotZ, stConnected.svPose.rotW)) ∧
      s'.connectedToServer = false ∧
      s'.loopTasks = stConnected.loopTasks + 1 ∧
      s'.svPose = stConnected.svPose :=
  ⟨reach_stConnected, rfl,
   claim_C6_recvFail stConnected 7 0 reach_stConnected rfl⟩

/-- Claim C7 is refuted: starting the supervisor with no address configured
spawns the retry loop, and after its first iteration the connecting flag is
true — the flags do not both remain false. -/
theorem claim_C7_counterexample :
    initState.SpectatorViewIP = none ∧
    initState.connectingToServer = false ∧
    initState.connectedToServer = false ∧
    Reachable stNoAddrLoop ∧
    stNoAddrLoop.SpectatorViewIP = none ∧
    stNoAddrLoop.connectingToServer = true :=
  ⟨rfl, rfl, rfl, reach_stNoAddrLoop, rfl, rfl⟩

/-- Claim C7 (amended): starting the supervisor with no address attempts no
connection and the start call itself leaves both flags unchanged, but it
spawns the retry loop, whose iterations attempt no connection (no
connect-attempt effect), set the connecting flag to true and leave
connected false while the address stays unset. -/
theorem claim_C7_amended_noAddr_spin (s : PluginState) (ok : Bool)
    (hip : s.SpectatorViewIP = none) (hcd : s.connectedToServer = false) :
    (ListenForServer s).connectingToServer = s.connectingToServer ∧
    (ListenForServer s).connectedToServer = s.connectedToServer ∧
    (loopIterate ok s).2 = [] ∧
    (loopIterate ok s).1.connectingToServer = true ∧
    (loopIterate ok s).1.connectedToServer = false := by
  obtain ⟨ip, cd, cg, lt, ao, sp, sd, ci, dv, ir, vi, tp, ct, sv, ot, vt⟩ := s
  have hip2 : ip = none := hip
  have hcd2 : cd = false := hcd
  subst hip2
  subst hcd2
  exact ⟨ListenForServer_connecting _, ListenForServer_connected _,
         by cases ok <;> simp [loopIterate],
         by cases ok <;> simp [loopIterate],
         by cases ok <;> simp [loopIterate]⟩

/-- Witness for the amended C7 at the initial state. -/
theorem claim_C7_amended_witness :
    initState.SpectatorViewIP = none ∧
    initState.connectedToServer = false ∧
    ((ListenForServer initState).connectingToServer =
        initState.connectingToServer ∧
     (ListenForServer initState).connectedToServer =
        initState.connectedToServer ∧
     (loopIterate true initState).2 = [] ∧
     (loopIterate true initState).1.connectingToServer = true ∧
     (loopIterate true initState).1.connectedToServer = false) :=
  ⟨rfl, rfl, claim_C7_amended_noAddr_spin initState true rfl rfl⟩

/-- Claim C8 is refuted in its render-tick part: after `ResetSV` all four
slots are unbound, but in a reachable state where a compositor session and
device exist, the next render tick is not a no-op — it still advances the
frame provider and initializes the encoder. -/
theorem claim_C8_counterexample :
    Reachable stAfterReset ∧
    stAfterReset.ci = true ∧
    stAfterReset.colorTexture = none ∧
    stAfterReset.UnityColorSRV = none ∧
    stAfterReset.outputTexture = none ∧
    stAfterReset.videoTexture = none ∧
    (OnRenderEvent true true stAfterReset).2 =
      [Effect.updateFrameProvider, Effect.initVideoEncoder] ∧
    (OnRenderEvent true true stAfterReset).1 ≠ stAfterReset :=
  ⟨reach_stAfterReset, rfl, rfl, rfl, rfl, rfl, rfl, by decide⟩

/-- Claim C8 (amended): `ResetSV` clears all four GPU slots in one step
under the lock; a following render tick does not crash, is a no-op when no
compositor session exists, and in any case never records a video frame and
never captures into a bound texture (only the null slot). -/
theorem claim_C8_amended_reset (a b : Bool) (s : PluginState) :
    (ResetSV s).colorTexture = none ∧
    (ResetSV s).UnityColorSRV = none ∧
    (ResetSV s).outputTexture = none ∧
    (ResetSV s).videoTexture = none ∧
    (s.ci = false → OnRenderEvent a b (ResetSV s) = (ResetSV s, [])) ∧
    (∀ t : Nat, Effect.recordFrame t ∉ (OnRenderEvent a b (ResetSV s)).2) ∧
    (∀ t : Nat, Effect.takePicture (some t) ∉ (OnRenderEvent a b (ResetSV s)).2) := by
  refine ⟨rfl, rfl, rfl, rfl, ?_, ?_, ?_⟩
  · intro hci
    unfold OnRenderEvent
    simp [ResetSV, hci]
  · intro t
    obtain ⟨ip, cd, cg, lt, ao, sp, sd, ci, dv, ir, vi, tp, ct, sv, ot, vt⟩ := s
    cases ci <;> cases dv <;> cases vi <;> cases tp <;> cases ir <;> cases b <;>
      simp [OnRenderEvent, ResetSV]
  · intro t
    obtain ⟨ip, cd, cg, lt, ao, sp, sd, ci, dv, ir, vi, tp, ct, sv, ot, vt⟩ := s
    cases ci <;> cases dv <;> cases vi <;> cases tp <;> cases ir <;> cases b <;>
      simp [OnRenderEvent, ResetSV]

/-- Witness for the amended C8 at the state with a compositor session. -/
theorem claim_C8_amended_witness :
    (ResetSV stCI).colorTexture = none ∧
    (ResetSV stCI).UnityColorSRV = none ∧
    (ResetSV stCI).outputTexture = none ∧
    (ResetSV stCI).videoTexture = none ∧
    (stCI.ci = false → OnRenderEvent true true (ResetSV stCI) = (ResetSV stCI, [])) ∧
    (∀ t : Nat, Effect.recordFrame t ∉ (OnRenderEvent true true (ResetSV stCI)).2) ∧
    (∀ t : Nat, Effect.takePicture (some t) ∉ (OnRenderEvent true true (ResetSV stCI)).2) :=
  claim_C8_amended_reset true true stCI

/-- Claim C9: texture binding is first-writer-wins on an unbound slot — the
second bind keeps the first resource, changes nothing and reports success;
for both the output and the video slot. -/
theorem claim_C9_firstWriterWins (s : PluginState) (A B : Nat)
    (hO : s.outputTexture = none) (hV : s.videoTexture = none) :
    ((SetOutputRenderTexture (some B)
        (SetOutputRenderTexture (some A) s).1).1.outputTexture = some A) ∧
    ((SetOutputRenderTexture (some B) (SetOutputRenderTexture (some A) s).1).1 =
      (SetOutputRenderTexture (some A) s).1) ∧
    ((SetOutputRenderTexture (some B)
        (SetOutputRenderTexture (some A) s).1).2 = true) ∧
    ((SetVideoRenderTexture (some B)
        (SetVideoRenderTexture (some A) s).1).1.videoTexture = some A) ∧
    ((SetVideoRenderTexture (some B) (SetVideoRenderTexture (some A) s).1).1 =
      (SetVideoRenderTexture (some A) s).1) ∧
    ((SetVideoRenderTexture (some B)
        (SetVideoRenderTexture (some A) s).1).2 = true) := by
  obtain ⟨ip, cd, cg, lt, ao, sp, sd, ci, dv, ir, vi, tp, ct, sv, ot, vt⟩ := s
  have h1 : ot = none := hO
  have h2 : vt = none := hV
  subst h1
  subst h2
  simp [SetOutputRenderTexture, SetVideoRenderTexture]

/-- Witness for C9 with two distinct handles on the fresh state. -/
theorem claim_C9_witness :
    initState.outputTexture = none ∧
    initState.videoTexture = none ∧
    (((SetOutputRenderTexture (some 6)
        (SetOutputRenderTexture (some 5) initState).1).1.outputTexture = some 5) ∧
     ((SetOutputRenderTexture (some 6)
        (SetOutputRenderTexture (some 5) initState).1).1 =
       (SetOutputRenderTexture (some 5) initState).1) ∧
     ((SetOutputRenderTexture (some 6)
        (SetOutputRenderTexture (some 5) initState).1).2 = true) ∧
     ((SetVideoRenderTexture (some 6)
        (SetVideoRenderTexture (some 5) initState).1).1.videoTexture = some 5) ∧
     ((SetVideoRenderTexture (some 6)
        (SetVideoRenderTexture (some 5) initState).1).1 =
       (SetVideoRenderTexture (some 5) initState).1) ∧
     ((SetVideoRenderTexture (some 6)
        (SetVideoRenderTexture (some 5) initState).1).2 = true)) :=
  ⟨rfl, rfl, claim_C9_firstWriterWins initState 5 6 rfl rfl⟩

/-- Claim C10: before the first successful receive, the cached pose is the
zero-initialized record, and any pose query that does not itself receive
returns position (0,0,0) and the zero quaternion (0,0,0,0), for every
offset and any connection state. -/
theorem claim_C10_zero_before_recv (s : PluginState) (n fd : Int)
    (recv : Option SVPose) (h : ReachableNoRecv s)
    (hq : s.connectedToServer = false ∨ recv = none) :
    s.svPose = SVPose.zero ∧
    ∃ s' effs, GetPose n recv fd s = some (s', effs, (0, 0, 0), (0, 0, 0, 0)) := by
  have hz := reachableNoRecv_svPose h
  refine ⟨hz, ?_⟩
  rcases hq with hc | hr
  · exact ⟨{ s with additionalOffsetTime := n }, [],
      by rw [GetPose_not_connected_eq s n fd recv hc, hz]; rfl⟩
  · subst hr
    cases hcd : s.connectedToServer with
    | false =>
        exact ⟨{ s with additionalOffsetTime := n }, [],
          by rw [GetPose_not_connected_eq s n fd none hcd, hz]; rfl⟩
    | true =>
        exact ⟨ListenForServer
                 { s with additionalOffsetTime := n, connectedToServer := false },
               [Effect.send s.sentData],
               by rw [GetPose_recv_none_eq s n fd hcd, hz]; rfl⟩

/-- Witness for C10 at the initial state. -/
theorem claim_C10_witness :
    ReachableNoRecv initState ∧
    initState.connectedToServer = false ∧
    (initState.svPose = SVPose.zero ∧
     ∃ s' effs, GetPose 999 (some peerPose) 4 initState =
       some (s', effs, (0, 0, 0), (0, 0, 0, 0))) :=
  ⟨ReachableNoRecv.init, rfl,
   claim_C10_zero_before_recv initState 999 4 (some peerPose)
     ReachableNoRecv.init (Or.inl rfl)⟩
